import Mathlib

/-!
# Verification of the OpenClaw safety layer

A shallow embedding of the two deterministic subsystems of the repository's
defense-in-depth safety layer, together with proofs of the specified
properties:

* the **watcher process supervisor** (`src/infra/watcher-manager.ts`):
  restart backoff, stop semantics, config filtering, child environment;
* the **config integrity guardian** (`tools/watchdog/system-prompt-guardian.sh`):
  constitutional-text check, baseline handling, pause escalation, exit codes.

Child processes, timers and files are modelled by explicit state passing:
a watcher's mutable record becomes a `WatcherState` value, the event
callbacks (process exit, restart-timer fire, stop request) become a `step`
function on that state, and the guardian's filesystem side effects become
fields of an explicit world/state record.
-/

namespace OpenClaw

namespace WatcherManager

/-- Constant `DEFAULT_RESTART_DELAY_SECONDS` from watcher-manager.ts. -/
def DEFAULT_RESTART_DELAY_SECONDS : Nat := 5

/-- Constant `MAX_RESTART_DELAY_SECONDS` from watcher-manager.ts (5 minutes cap). -/
def MAX_RESTART_DELAY_SECONDS : Nat := 300

/-- Constant `RAPID_EXIT_THRESHOLD_MS` from watcher-manager.ts: exits within 10s count as rapid. -/
def RAPID_EXIT_THRESHOLD_MS : Nat := 10000

/-- The watcher spec from configuration (`WatcherConfig` in
types.agent-defaults): command string, optional enabled flag, optional poll
interval, optional cwd, extra env bindings, optional restart-delay override.
`none` models an absent (undefined) field. -/
structure WatcherConfig where
  command : String
  enabled : Option Bool := none
  interval : Option Int := none
  cwd : Option String := none
  env : List (String × String) := []
  restartDelaySeconds : Option Nat := none
deriving Repr, DecidableEq

/-- Function `resolveRestartDelay` from watcher-manager.ts:
base delay (spec override or default) times `2^(n-1)` for `n > 0` rapid
exits, capped at `MAX_RESTART_DELAY_SECONDS`. -/
def resolveRestartDelay (config : WatcherConfig) (consecutiveRapidExits : Nat) : Nat :=
  let baseDelay := config.restartDelaySeconds.getD DEFAULT_RESTART_DELAY_SECONDS
  let backoffMultiplier :=
    if consecutiveRapidExits > 0 then 2 ^ (consecutiveRapidExits - 1) else 1
  min (baseDelay * backoffMultiplier) MAX_RESTART_DELAY_SECONDS

/-- JS `String.prototype.trim`: strip leading and trailing whitespace.
Implemented structurally over the character list so that it reduces in the
kernel. -/
def jsTrim (s : String) : String :=
  ⟨((s.data.dropWhile Char.isWhitespace).reverse.dropWhile Char.isWhitespace).reverse⟩

/-- An environment map: JS object from variable name to value, `none` = absent. -/
def EnvMap : Type := String → Option String

/-- Assignment `env[key] = value` on a JS object. -/
def setVar (m : EnvMap) (k v : String) : EnvMap :=
  fun x => if x = k then some v else m x

/-- Function `buildWatcherEnv` from watcher-manager.ts: start from a copy of
`process.env`, inject `WATCHER_NAME`, inject `WATCHER_INTERVAL_SECONDS` when
the spec's interval is a number greater than zero, then merge the
user-specified env map entry by entry (later assignment wins). -/
def buildWatcherEnv (processEnv : EnvMap) (name : String) (config : WatcherConfig) : EnvMap :=
  let env := setVar processEnv "WATCHER_NAME" name
  let env :=
    match config.interval with
    | some i => if i > 0 then setVar env "WATCHER_INTERVAL_SECONDS" (toString i) else env
    | none => env
  config.env.foldl (fun e kv => setVar e kv.1 kv.2) env

/-- The mutable per-watcher record (`WatcherState` in watcher-manager.ts).
`process` holds the child pid when a process is running; `restartTimer`
holds the scheduled delay in seconds when a restart is pending;
`lastStartedAt` is a millisecond timestamp. -/
structure WatcherState where
  name : String
  config : WatcherConfig
  process : Option Nat
  restartTimer : Option Nat
  consecutiveRapidExits : Nat
  lastStartedAt : Option Nat
  stopped : Bool
deriving Repr, DecidableEq

/-- Function `spawnWatcher` from watcher-manager.ts, as a state update: record the
start time and the new child process. (Log lines and stdio wiring carry no
state.) -/
def spawnWatcher (s : WatcherState) (now pid : Nat) : WatcherState :=
  { s with lastStartedAt := some now, process := some pid }

/-- The `child.on("exit", ...)` handler from watcher-manager.ts: a no-op
once stopped; otherwise classify the exit as rapid (elapsed since last
start below the threshold), update the consecutive-rapid-exit counter,
clear the process handle, and schedule a restart after
`resolveRestartDelay` seconds. -/
def handleExit (s : WatcherState) (now : Nat) : WatcherState :=
  if s.stopped then s
  else
    let elapsed := match s.lastStartedAt with
      | some t => now - t
      | none => 0
    let isRapidExit := elapsed < RAPID_EXIT_THRESHOLD_MS
    let counter := if isRapidExit then s.consecutiveRapidExits + 1 else 0
    let delaySeconds := resolveRestartDelay s.config counter
    { s with
      consecutiveRapidExits := counter
      process := none
      restartTimer := some delaySeconds }

/-- The restart-timer callback from watcher-manager.ts: a no-op once
stopped (or when no timer is pending, since then no callback exists to
fire); otherwise clear the timer and spawn a fresh process. -/
def fireRestartTimer (s : WatcherState) (now pid : Nat) : WatcherState :=
  if s.stopped then s
  else
    match s.restartTimer with
    | none => s
    | some _ => spawnWatcher { s with restartTimer := none } now pid

/-- Function `stopWatcher` from watcher-manager.ts, observed after its promise
resolves: the stopped flag is set, any pending restart timer is cleared,
and the process handle is cleared (the child was killed gracefully or
forcefully). -/
def stopWatcher (s : WatcherState) : WatcherState :=
  { s with stopped := true, restartTimer := none, process := none }

/-- The asynchronous events that can reach one watcher's state. -/
inductive WatcherEvent where
  | processExit (now : Nat)
  | timerFire (now pid : Nat)
  | stopRequest
deriving Repr, DecidableEq

/-- One event applied to one watcher's state. -/
def step (s : WatcherState) (e : WatcherEvent) : WatcherState :=
  match e with
  | .processExit now => handleExit s now
  | .timerFire now pid => fireRestartTimer s now pid
  | .stopRequest => stopWatcher s

/-- Whether handling event `e` in state `s` starts a child process: only a
restart-timer callback spawns, and only when the watcher is not stopped and
a timer is actually pending. -/
def stepStartsProcess (s : WatcherState) (e : WatcherEvent) : Bool :=
  match e with
  | .timerFire _ _ => !s.stopped && s.restartTimer.isSome
  | _ => false

/-- Whether any event of the sequence `es`, run from state `s`, starts a
child process. -/
def anySpawn : WatcherState → List WatcherEvent → Bool
  | _, [] => false
  | s, e :: es => stepStartsProcess s e || anySpawn (step s e) es

/-- The updated rapid-exit counter computed by the exit handler. -/
def exitCounter (s : WatcherState) (now : Nat) : Nat :=
  if (match s.lastStartedAt with | some t => now - t | none => 0) < RAPID_EXIT_THRESHOLD_MS
  then s.consecutiveRapidExits + 1 else 0

/-- The watcher portion of the supervisor's configuration
(`cfg.agents?.defaults?.watchers`): an optional JS object from watcher name
to watcher config; a value may itself be null/undefined (`none`). -/
structure OpenClawConfig where
  watchers : Option (List (String × Option WatcherConfig)) := none
deriving Repr, DecidableEq

/-- The per-entry filter of `resolveWatcherConfigs`:
`config && config.enabled !== false && config.command?.trim()`. -/
def keepWatcherEntry : String × Option WatcherConfig → Option (String × WatcherConfig)
  | (_, none) => none
  | (name, some c) =>
    if c.enabled ≠ some false ∧ jsTrim c.command ≠ "" then some (name, c) else none

/-- Function `resolveWatcherConfigs` from watcher-manager.ts: keep the entries whose
config is present, whose `enabled` is not `false`, and whose trimmed
command is non-empty. -/
def resolveWatcherConfigs (cfg : OpenClawConfig) : List (String × WatcherConfig) :=
  match cfg.watchers with
  | none => []
  | some ws => ws.filterMap keepWatcherEntry

/-- The supervisor's in-memory map of watcher states (`watchers` in
`startWatcherManager`), as an association list keyed by watcher name. -/
structure Manager where
  watchers : List (String × WatcherState)
deriving Repr, DecidableEq

/-- The fresh `WatcherState` built by `startAll` for one resolved config. -/
def initialWatcherState (name : String) (config : WatcherConfig) : WatcherState :=
  { name := name, config := config, process := none, restartTimer := none
    consecutiveRapidExits := 0, lastStartedAt := none, stopped := false }

/-- Function `startAll` from watcher-manager.ts, run on the empty map (its two call
sites: initial start and the restart after `stopAll` cleared the map): each
resolved config gets a fresh state whose process is spawned immediately. -/
def startAll (cfg : OpenClawConfig) (now pid : Nat) : Manager :=
  { watchers := (resolveWatcherConfigs cfg).map fun p =>
      (p.1, spawnWatcher (initialWatcherState p.1 p.2) now pid) }

/-- Function `startWatcherManager` from watcher-manager.ts: initial start. -/
def startWatcherManager (cfg : OpenClawConfig) (now pid : Nat) : Manager :=
  startAll cfg now pid

/-- Function `stopAll` from watcher-manager.ts, observed after it resolves: every
state in the map went through `stopWatcher` concurrently, after which
`watchers.clear()` empties the map. -/
def stopAll (_m : Manager) : Manager :=
  { watchers := [] }

/-- Function `updateConfig` from watcher-manager.ts, observed once its asynchronous
stop-then-start sequence has completed: a full `stopAll` followed by
`startAll` into the cleared map. -/
def updateConfig (m : Manager) (cfg : OpenClawConfig) (now pid : Nat) : Manager :=
  { watchers := (stopAll m).watchers ++ (startAll cfg now pid).watchers }

/-- Function `getRunningWatchers` from watcher-manager.ts: names of entries with a
live process handle and not marked stopped. -/
def getRunningWatchers (m : Manager) : List String :=
  (m.watchers.filter fun p => p.2.process.isSome && !p.2.stopped).map Prod.fst

/-- The value the user env map finally assigns to key `k` after its entries
are applied in order (the last assignment wins), `none` if no entry names
`k`. -/
def lookupLast : List (String × String) → String → Option String
  | [], _ => none
  | kv :: rest, k =>
    match lookupLast rest k with
    | some v => some v
    | none => if kv.1 = k then some kv.2 else none

end WatcherManager

end OpenClaw

namespace OpenClaw.Guardian

open OpenClaw.WatcherManager (jsTrim)

/-- Shell `tr upper lower` from the guardian script: ASCII lowercasing. -/
def lowerString (s : String) : String :=
  ⟨s.data.map Char.toLower⟩

/-- Whether `needle` occurs at the start of `hay`. -/
def startsWithChars : List Char → List Char → Bool
  | [], _ => true
  | _ :: _, [] => false
  | n :: ns, h :: hs => n = h && startsWithChars ns hs

/-- The shell `case "$hay" in *"$needle"*)` test: contiguous substring
containment. -/
def containsChars (hay needle : List Char) : Bool :=
  match hay with
  | [] => needle.isEmpty
  | _ :: rest => startsWithChars needle hay || containsChars rest needle

/-- Substring containment on strings. -/
def containsSubstring (hay needle : String) : Bool :=
  containsChars hay.data needle.data

/-- One incident record (`log_incident`): severity, check name and free
text details. Timestamp, hostname, pid and config path carry no checked
content. -/
structure Incident where
  severity : String
  check : String
  details : String
deriving Repr, DecidableEq

/-- The phrase lines of the constitutional-phrases file that actually get
checked: drop comment lines starting with a hash and blank lines, lowercase
and trim the rest, and drop lines that trim to nothing. Each kept line is
returned as (raw, lowered-trimmed). -/
def activePhrases (lines : List String) : List (String × String) :=
  lines.filterMap fun line =>
    if line = "" then none
    else if line.data.head? = some '#' then none
    else
      let lp := jsTrim (lowerString line)
      if lp = "" then none else some (line, lp)

/-- Function `check_constitutional_text` from the guardian script, given the
resolved prompt text: when the text is empty the phrase checks are skipped
entirely (no incident); otherwise every active phrase must occur
case-insensitively in the text, and any missing phrase yields one
high-severity incident. -/
def check_constitutional_text (phraseLines : List String) (allPromptText : String) :
    Option Incident :=
  if allPromptText = "" then none
  else
    let lowerText := lowerString allPromptText
    let missing := (activePhrases phraseLines).filter fun p => !containsSubstring lowerText p.2
    if missing.isEmpty then none
    else some
      { severity := "high", check := "constitutional-text"
        details := "Missing safety phrases in system prompts:\n" ++
          String.join (missing.map fun p => "  - " ++ p.1 ++ "\n") }

/-- The jq extraction feeding `check_constitutional_text`: the optional
`agents.defaults.systemPrompt` and the present per-agent `systemPrompt`
values joined with newlines, then the contents of every readable AGENTS.md
or SOUL.md appended (`none` = absent or unreadable). -/
def resolveAllPromptText (defaultsPrompt : Option String) (agentPrompts : List (Option String))
    (docFiles : List (Option String)) : String :=
  let prompts := (match defaultsPrompt with | some p => [p] | none => []) ++
    agentPrompts.filterMap id
  String.intercalate "\n" prompts ++ String.join (docFiles.filterMap id)

/-- The jq-extracted values inspected by `check_tool_policies`; the string
"not-set" models an absent field, as in the script. Per-agent triples are
(id, elevated, security). -/
structure ToolPolicyView where
  elevatedDefault : String
  execSecurity : String
  agentsList : List (String × String × String)
  dmPolicy : String
  gatewayHost : String
  gatewayAuth : String
deriving Repr, DecidableEq

/-- Function `check_tool_policies` from the guardian script: collect every flagged
condition; any violation yields one high-severity incident. -/
def check_tool_policies (v : ToolPolicyView) : Option Incident :=
  let violations :=
    (if v.elevatedDefault = "true" ∨ v.elevatedDefault = "allow"
      then ["Elevated exec enabled by default"] else []) ++
    (if v.execSecurity = "full"
      then ["Exec security set to full by default"] else []) ++
    (v.agentsList.flatMap fun a =>
      (if a.2.1 = "true" ∨ a.2.1 = "allow"
        then ["Agent " ++ a.1 ++ ": elevated exec enabled"] else []) ++
      (if a.2.2 = "full"
        then ["Agent " ++ a.1 ++ ": exec security set to full"] else [])) ++
    (if v.dmPolicy = "open"
      then ["Gateway DM policy is open"] else []) ++
    (if v.gatewayHost ≠ "not-set" ∧ v.gatewayHost ≠ "127.0.0.1" ∧ v.gatewayHost ≠ "localhost" ∧
        (v.gatewayAuth = "not-set" ∨ v.gatewayAuth = "null" ∨ v.gatewayAuth = "none")
      then ["Gateway bound to " ++ v.gatewayHost ++ " without auth configured"] else [])
  if violations.isEmpty then none
  else some { severity := "high", check := "tool-policies"
              details := "Tool policy violations" }

/-- A stored baseline: the parsed `section=hexhash` records. -/
abbrev Baseline := List (String × String)

/-- The tracked config sections of `check_config_integrity`. -/
def INTEGRITY_SECTIONS : List String :=
  ["agents.defaults", "gateway.auth", "gateway.host", "gateway.dmPolicy", "agents.list"]

/-- The jq-extractable content of the config file: per-section compact
value and the whole document in canonical (sorted-key) form. -/
structure ConfigView where
  sectionValue : String → String
  fullCanonical : String

/-- The hashes `check_config_integrity` computes from the current config:
one per tracked section plus the `__full__` catch-all. -/
def currentHashes (hash : String → String) (cv : ConfigView) : Baseline :=
  (INTEGRITY_SECTIONS.map fun sec => (sec, hash (cv.sectionValue sec))) ++
    [("__full__", hash cv.fullCanonical)]

/-- The hash recomputed for one baseline record during comparison. -/
def actualHashFor (hash : String → String) (cv : ConfigView) (sec : String) : String :=
  if sec = "__full__" then hash cv.fullCanonical else hash (cv.sectionValue sec)

/-- Function `check_config_integrity` from the guardian script. Returns the baseline
file content after the call and the incident, if any. With no baseline file
and no `--init-baseline` it skips. With `--init-baseline` it writes the
freshly computed hashes (creating or overwriting the file) and reports
nothing. Otherwise it recomputes the hash for every baseline record; a
critical drift incident fires if any differs, and the baseline file is
only read, never written. -/
def check_config_integrity (initBaseline : Bool) (hash : String → String) (cv : ConfigView)
    (baseline : Option Baseline) : Option Baseline × Option Incident :=
  match baseline, initBaseline with
  | none, false => (none, none)
  | _, true => (some (currentHashes hash cv), none)
  | some b, false =>
    let drift := b.filter fun p => actualHashFor hash cv p.1 ≠ p.2
    (some b,
      if drift.isEmpty then none
      else some { severity := "critical", check := "config-integrity"
                  details := "Config drift detected" })

/-- Function `check_file_permissions` from the guardian script: a medium incident
when the permission digits could be read and the world digit grants write
(2, 3, 6 or 7). -/
def check_file_permissions (permsKnown : Bool) (worldBits : Nat) : Option Incident :=
  if permsKnown ∧ (worldBits = 2 ∨ worldBits = 3 ∨ worldBits = 6 ∨ worldBits = 7)
  then some { severity := "medium", check := "file-permissions"
              details := "Config file is world-writable" }
  else none

/-- The gateway-stop strategies of `pause_gateway`, in source order: the
native CLI command, direct node invocation of an installed entry script,
systemd user unit stop, launchd stop. -/
inductive StopStrategy where
  | cli
  | node
  | systemd
  | launchd
deriving Repr, DecidableEq

/-- The order in which `pause_gateway` tries its strategies. -/
def strategyOrder : List StopStrategy := [.cli, .node, .systemd, .launchd]

/-- Try each strategy in order; `ok s` says whether strategy `s` is
available and its stop command succeeds. Returns the first that works. -/
def attemptStrategies (ok : StopStrategy → Bool) : List StopStrategy → Option StopStrategy
  | [] => none
  | s :: rest => if ok s then some s else attemptStrategies ok rest

/-- The exact JSON line written to `gateway.lock` when every stop strategy
failed (braces written with escapes in this source file). -/
def lockFileContent (timestamp : String) : String :=
  "\x7b\"locked\":true,\"reason\":\"watchdog_critical_violation\",\"timestamp\":\"" ++
    timestamp ++ "\"\x7d\n"

/-- Function `pause_gateway` from the guardian script: the first working strategy
stops the gateway; if none works, the lock file is written as a durable
trace. Returns (strategy used, lock file content written). -/
def pause_gateway (ok : StopStrategy → Bool) (timestamp : String) :
    Option StopStrategy × Option String :=
  match attemptStrategies ok strategyOrder with
  | some s => (some s, none)
  | none => (none, some (lockFileContent timestamp))

/-- Function `fire_alert` from the guardian script, pause part: `pause_gateway` runs
exactly when the pause-gateway flag is set and the incident severity is
critical. (The optional alert command is fire-and-forget and carries no
checked state.) -/
def fire_alert (pauseGatewayFlag : Bool) (severity : String) (ok : StopStrategy → Bool)
    (timestamp : String) : Option (Option StopStrategy × Option String) :=
  if pauseGatewayFlag ∧ severity = "critical" then some (pause_gateway ok timestamp) else none

/-- Everything one guardian pass reads: CLI/setup state and the inputs of
the four checks. -/
structure GuardianWorld where
  unknownOption : Bool
  jqAvailable : Bool
  shaAvailable : Bool
  configFound : Bool
  configValidJson : Bool
  initBaseline : Bool
  phraseLines : List String
  defaultsPrompt : Option String
  agentPrompts : List (Option String)
  docFiles : List (Option String)
  toolPolicy : ToolPolicyView
  hash : String → String
  configView : ConfigView
  permsKnown : Bool
  worldBits : Nat

/-- The four checks of a normal pass, in source order; returns the baseline
file content afterwards and the incidents (one per failed check). -/
def runChecks (w : GuardianWorld) (baseline : Option Baseline) :
    Option Baseline × List Incident :=
  let i1 := check_constitutional_text w.phraseLines
    (resolveAllPromptText w.defaultsPrompt w.agentPrompts w.docFiles)
  let i2 := check_tool_policies w.toolPolicy
  let r3 := check_config_integrity false w.hash w.configView baseline
  let i4 := check_file_permissions w.permsKnown w.worldBits
  (r3.1, [i1, i2, r3.2, i4].filterMap id)

/-- Function `main` from the guardian script: resolve and validate the config (exit
2 on setup errors), handle the init-baseline flag (write baseline, exit 0),
else run the four checks and exit 1 iff at least one failed. Returns (exit
status, baseline file content afterwards). -/
def main (w : GuardianWorld) (baseline : Option Baseline) : Nat × Option Baseline :=
  if w.configFound = false then (2, baseline)
  else if w.configValidJson = false then (2, baseline)
  else if w.initBaseline then
    (0, (check_config_integrity true w.hash w.configView baseline).1)
  else
    (if 0 < (runChecks w baseline).2.length then 1 else 0, (runChecks w baseline).1)

/-- One-shot entry: argument parsing (`die` on an unknown option) and
dependency checks (`die` when jq or a sha256 tool is missing) happen before
`main`; `die` exits 2. -/
def run_once (w : GuardianWorld) (baseline : Option Baseline) : Nat × Option Baseline :=
  if w.unknownOption then (2, baseline)
  else if w.jqAvailable = false then (2, baseline)
  else if w.shaAvailable = false then (2, baseline)
  else main w baseline

/-- Function `run_watch`: `main` runs once per tick regardless of the previous exit
status; each pass may see fresh check inputs, one world element per tick.
Returns the baseline file content after the loop has run through `ws`. -/
def run_watch (ws : List GuardianWorld) (baseline : Option Baseline) : Option Baseline :=
  ws.foldl (fun b w => (main w b).2) baseline

/-- No setup error: options parsed, jq and sha tooling present, config
found and valid JSON. -/
abbrev noSetupError (w : GuardianWorld) : Prop :=
  w.unknownOption = false ∧ w.jqAvailable = true ∧ w.shaAvailable = true ∧
    w.configFound = true ∧ w.configValidJson = true

/-- A benign tool-policy view: nothing flagged. -/
def TP0 : ToolPolicyView :=
  { elevatedDefault := "not-set", execSecurity := "not-set", agentsList := []
    dmPolicy := "not-set", gatewayHost := "not-set", gatewayAuth := "not-set" }

/-- A small concrete config view for witnesses. -/
def CV0 : ConfigView :=
  { sectionValue := fun _ => "null", fullCanonical := "cfg" }

/-- A concrete all-checks-pass guardian world for witnesses: no setup
error, flag off, one satisfied phrase, benign policies, safe permissions. -/
def W0 : GuardianWorld :=
  { unknownOption := false, jqAvailable := true, shaAvailable := true
    configFound := true, configValidJson := true, initBaseline := false
    phraseLines := ["safety"], defaultsPrompt := some "Mind all Safety rules"
    agentPrompts := [], docFiles := [], toolPolicy := TP0
    hash := fun s => s, configView := CV0, permsKnown := true, worldBits := 0 }

end OpenClaw.Guardian

namespace OpenClaw.WatcherManager

/-- Claim C2. On a non-requested process exit of a watcher last started at
time `t`, the rapid-exit counter is incremented exactly when the elapsed
time since the last start is below the 10-second threshold and reset to 0
otherwise, and the scheduled restart delay (in seconds) equals
`min(base * 2^(counter - 1), 300)` computed from the updated counter, with
`base` the spec's `restartDelaySeconds` or 5 when absent. (In `Nat`,
`counter - 1` is `max(counter-1, 0)`.) -/
theorem exit_handler_backoff (s : WatcherState) (now t : Nat)
    (hstart : s.lastStartedAt = some t) (hrun : s.stopped = false) :
    (handleExit s now).consecutiveRapidExits =
      (if now - t < RAPID_EXIT_THRESHOLD_MS then s.consecutiveRapidExits + 1 else 0) ∧
    (handleExit s now).restartTimer =
      some (min ((s.config.restartDelaySeconds.getD 5) *
        2 ^ ((handleExit s now).consecutiveRapidExits - 1)) 300) := by
  unfold handleExit
  rw [hrun, hstart]
  simp only [Bool.false_eq_true, if_false]
  constructor
  · trivial
  · by_cases hrapid : now - t < RAPID_EXIT_THRESHOLD_MS
    · simp only [hrapid, if_true]
      unfold resolveRestartDelay
      simp [DEFAULT_RESTART_DELAY_SECONDS, MAX_RESTART_DELAY_SECONDS]
    · simp only [hrapid, if_false]
      unfold resolveRestartDelay
      simp [DEFAULT_RESTART_DELAY_SECONDS, MAX_RESTART_DELAY_SECONDS]


lemma handleExit_eq (s : WatcherState) (now : Nat) (h : s.stopped = false) :
    handleExit s now = { s with
      consecutiveRapidExits := exitCounter s now
      process := none
      restartTimer := some (resolveRestartDelay s.config (exitCounter s now)) } := by
  unfold handleExit exitCounter
  rw [h]
  rfl

lemma fireRestartTimer_eq (s : WatcherState) (now pid d : Nat) (h : s.stopped = false)
    (ht : s.restartTimer = some d) :
    fireRestartTimer s now pid = { s with
      restartTimer := none
      lastStartedAt := some now
      process := some pid } := by
  unfold fireRestartTimer spawnWatcher
  rw [h, ht]
  rfl

lemma resolveRestartDelay_succ (config : WatcherConfig) (c : Nat) :
    resolveRestartDelay config (c + 1) =
      min (config.restartDelaySeconds.getD DEFAULT_RESTART_DELAY_SECONDS * 2 ^ c)
        MAX_RESTART_DELAY_SECONDS := by
  unfold resolveRestartDelay
  simp

lemma resolveRestartDelay_le_max (config : WatcherConfig) (c : Nat) :
    resolveRestartDelay config c ≤ MAX_RESTART_DELAY_SECONDS := by
  unfold resolveRestartDelay
  exact min_le_right _ _

/-- Witness for `exit_handler_backoff` at a concrete rapid exit: started at
1000ms, exits at 3000ms, counter goes from 2 to 3, delay is
`min(5 * 2^2, 300) = 20` seconds. -/
theorem exit_handler_backoff_witness :
    let s : WatcherState :=
      { name := "w", config := { command := "sleep 300" }, process := some 7
        restartTimer := none, consecutiveRapidExits := 2
        lastStartedAt := some 1000, stopped := false }
    (handleExit s 3000).consecutiveRapidExits =
      (if 3000 - 1000 < RAPID_EXIT_THRESHOLD_MS then s.consecutiveRapidExits + 1 else 0) ∧
    (handleExit s 3000).restartTimer =
      some (min ((s.config.restartDelaySeconds.getD 5) *
        2 ^ ((handleExit s 3000).consecutiveRapidExits - 1)) 300) :=
  exit_handler_backoff _ 3000 1000 rfl rfl

/-- Claim C3, counterexample. With `restartDelaySeconds = 300` (the ceiling),
two consecutive rapid exits both schedule a 300-second restart delay: the
second delay is NOT strictly greater than the first. The watcher starts at
time 0, exits rapidly at 1000ms (delay 300s), restarts at 2000ms, exits
rapidly again at 2500ms (delay 300s again). -/
theorem backoff_not_strict_at_ceiling :
    (handleExit
        (spawnWatcher
          { name := "w", config := { command := "c", restartDelaySeconds := some 300 }
            process := none, restartTimer := none, consecutiveRapidExits := 0
            lastStartedAt := none, stopped := false } 0 1)
        1000).restartTimer = some 300 ∧
    (handleExit
        (fireRestartTimer
          (handleExit
            (spawnWatcher
              { name := "w", config := { command := "c", restartDelaySeconds := some 300 }
                process := none, restartTimer := none, consecutiveRapidExits := 0
                lastStartedAt := none, stopped := false } 0 1)
            1000)
          2000 2)
        2500).restartTimer = some 300 ∧
    ¬ (300 : Nat) < 300 := by
  refine ⟨by decide, by decide, by decide⟩

/-- Claim C3, amended. If a watcher (not stopped, last started at `t0`) exits
rapidly at `now1`, the pending restart fires at `now2`, and the fresh
process again exits rapidly at `now3`, then the second scheduled delay is
greater than or equal to the first, never exceeds the 300-second ceiling,
and is strictly greater whenever the base delay is positive and the first
delay is below the ceiling. -/
theorem backoff_monotone (s : WatcherState) (t0 now1 now2 now3 pid : Nat)
    (hrun : s.stopped = false) (hstart : s.lastStartedAt = some t0)
    (hrapid1 : now1 - t0 < RAPID_EXIT_THRESHOLD_MS)
    (hrapid2 : now3 - now2 < RAPID_EXIT_THRESHOLD_MS) :
    ∃ d1 d3,
      (handleExit s now1).restartTimer = some d1 ∧
      (handleExit (fireRestartTimer (handleExit s now1) now2 pid) now3).restartTimer = some d3 ∧
      d1 ≤ d3 ∧
      d3 ≤ MAX_RESTART_DELAY_SECONDS ∧
      (0 < s.config.restartDelaySeconds.getD DEFAULT_RESTART_DELAY_SECONDS →
        d1 < MAX_RESTART_DELAY_SECONDS → d1 < d3) := by
  set c := s.consecutiveRapidExits with hc
  set base := s.config.restartDelaySeconds.getD DEFAULT_RESTART_DELAY_SECONDS with hbase
  have hcount1 : exitCounter s now1 = c + 1 := by
    unfold exitCounter
    rw [hstart]
    simp [hrapid1]
  have h1 := handleExit_eq s now1 hrun
  set s1 := handleExit s now1 with hs1
  have hs1run : s1.stopped = false := by rw [h1]; exact hrun
  have hs1timer : s1.restartTimer = some (resolveRestartDelay s.config (c + 1)) := by
    rw [h1, hcount1]
  have h2 := fireRestartTimer_eq s1 now2 pid _ hs1run hs1timer
  set s2 := fireRestartTimer s1 now2 pid with hs2
  have hs2run : s2.stopped = false := by rw [h2]; exact hs1run
  have hs2count : s2.consecutiveRapidExits = c + 1 := by
    rw [h2, h1, hcount1]
  have hs2cfg : s2.config = s.config := by rw [h2, h1]
  have hs2start : s2.lastStartedAt = some now2 := by rw [h2]
  have hcount3 : exitCounter s2 now3 = c + 2 := by
    unfold exitCounter
    rw [hs2start, hs2count]
    simp [hrapid2]
  have h3 := handleExit_eq s2 now3 hs2run
  refine ⟨resolveRestartDelay s.config (c + 1), resolveRestartDelay s.config (c + 2),
    hs1timer, ?_, ?_, resolveRestartDelay_le_max _ _, ?_⟩
  · rw [h3, hcount3, hs2cfg]
  · rw [resolveRestartDelay_succ, resolveRestartDelay_succ, ← hbase]
    refine min_le_min (Nat.mul_le_mul_left _ ?_) le_rfl
    exact Nat.pow_le_pow_right (by norm_num) (Nat.le_succ c)
  · intro hpos hlt
    rw [resolveRestartDelay_succ, ← hbase] at hlt ⊢
    rw [resolveRestartDelay_succ, ← hbase]
    have hx : base * 2 ^ c < MAX_RESTART_DELAY_SECONDS := by
      rcases min_lt_iff.mp hlt with h | h
      · exact h
      · exact absurd h (lt_irrefl _)
    rw [min_eq_left hx.le]
    have hxpos : 0 < base * 2 ^ c := Nat.mul_pos hpos (Nat.pos_pow_of_pos c (by norm_num))
    refine lt_min ?_ hx
    calc base * 2 ^ c < base * 2 ^ c * 2 := by omega
      _ = base * 2 ^ (c + 1) := by ring

/-- Witness for `backoff_monotone` with the default 5-second base delay:
rapid exits at 1s and 2.5s after their starts give delays 5s then 10s. -/
theorem backoff_monotone_witness :
    let s : WatcherState :=
      { name := "w", config := { command := "c" }, process := some 1
        restartTimer := none, consecutiveRapidExits := 0
        lastStartedAt := some 0, stopped := false }
    ∃ d1 d3,
      (handleExit s 1000).restartTimer = some d1 ∧
      (handleExit (fireRestartTimer (handleExit s 1000) 6000 2) 8500).restartTimer = some d3 ∧
      d1 ≤ d3 ∧
      d3 ≤ MAX_RESTART_DELAY_SECONDS ∧
      (0 < s.config.restartDelaySeconds.getD DEFAULT_RESTART_DELAY_SECONDS →
        d1 < MAX_RESTART_DELAY_SECONDS → d1 < d3) :=
  backoff_monotone _ 0 1000 6000 8500 2 rfl rfl (by decide) (by decide)


lemma step_preserves_stopped (s : WatcherState) (e : WatcherEvent) (h : s.stopped = true) :
    (step s e).stopped = true := by
  cases e with
  | processExit now => simp [step, handleExit, h]
  | timerFire now pid => simp [step, fireRestartTimer, h]
  | stopRequest => simp [step, stopWatcher]

lemma stepStartsProcess_of_stopped (s : WatcherState) (e : WatcherEvent)
    (h : s.stopped = true) : stepStartsProcess s e = false := by
  cases e with
  | timerFire now pid => simp [stepStartsProcess, h]
  | processExit now => rfl
  | stopRequest => rfl

lemma anySpawn_of_stopped : ∀ (es : List WatcherEvent) (s : WatcherState),
    s.stopped = true → anySpawn s es = false
  | [], _, _ => rfl
  | e :: es, s, h => by
    rw [anySpawn, stepStartsProcess_of_stopped s e h, Bool.false_or]
    exact anySpawn_of_stopped es (step s e) (step_preserves_stopped s e h)

lemma step_fixed_of_halted (s : WatcherState) (e : WatcherEvent) (h : s.stopped = true)
    (hp : s.process = none) (ht : s.restartTimer = none) : step s e = s := by
  cases e with
  | processExit now => simp [step, handleExit, h]
  | timerFire now pid => simp [step, fireRestartTimer, h]
  | stopRequest =>
    show stopWatcher s = s
    unfold stopWatcher
    cases s
    simp_all

lemma foldl_step_halted : ∀ (es : List WatcherEvent) (s : WatcherState),
    s.stopped = true → s.process = none → s.restartTimer = none →
    es.foldl step s = s
  | [], _, _, _, _ => rfl
  | e :: es, s, h, hp, ht => by
    rw [List.foldl_cons, step_fixed_of_halted s e h hp ht]
    exact foldl_step_halted es s h hp ht

/-- Claim C1. After `stop()` resolves the running list is empty, and once
stop has been requested for a watcher no later event — not the process-exit
handler, not a pending restart timer — ever starts a process: every event
sequence applied after `stopWatcher` spawns nothing and leaves the watcher
with no process and terminally stopped. -/
theorem stop_is_terminal (m : Manager) (s : WatcherState) (es : List WatcherEvent) :
    getRunningWatchers (stopAll m) = [] ∧
    anySpawn (stopWatcher s) es = false ∧
    (es.foldl step (stopWatcher s)).process = none ∧
    (es.foldl step (stopWatcher s)).stopped = true := by
  refine ⟨rfl, anySpawn_of_stopped es _ rfl, ?_, ?_⟩ <;>
    rw [foldl_step_halted es (stopWatcher s) rfl rfl rfl] <;> rfl

lemma running_names : ∀ (l : List (String × WatcherConfig)) (now pid : Nat),
    ((l.map fun p => (p.1, spawnWatcher (initialWatcherState p.1 p.2) now pid)).filter
        fun p => p.2.process.isSome && !p.2.stopped).map Prod.fst = l.map Prod.fst
  | [], _, _ => rfl
  | q :: t, now, pid => by
    rw [List.map_cons, List.filter_cons, List.map_cons]
    have hkeep : (((q.1, spawnWatcher (initialWatcherState q.1 q.2) now pid)).2.process.isSome &&
        !((q.1, spawnWatcher (initialWatcherState q.1 q.2) now pid)).2.stopped) = true := rfl
    rw [hkeep]
    rw [if_pos rfl, List.map_cons, running_names t now pid]

lemma getRunningWatchers_startAll (cfg : OpenClawConfig) (now pid : Nat) :
    getRunningWatchers (startAll cfg now pid) = (resolveWatcherConfigs cfg).map Prod.fst := by
  unfold getRunningWatchers startAll
  exact running_names _ now pid

lemma assoc_value_unique : ∀ (ws : List (String × Option WatcherConfig)),
    (ws.map Prod.fst).Nodup → ∀ {n : String} {x y : Option WatcherConfig},
    (n, x) ∈ ws → (n, y) ∈ ws → x = y
  | [], _, _, _, _, hx, _ => absurd hx (List.not_mem_nil _)
  | (a, b) :: t, hnodup, n, x, y, hx, hy => by
    rw [List.map_cons, List.nodup_cons] at hnodup
    rcases List.mem_cons.mp hx with hx1 | hx1 <;>
      rcases List.mem_cons.mp hy with hy1 | hy1
    · rw [Prod.mk.injEq] at hx1 hy1
      rw [hx1.2, hy1.2]
    · exfalso
      apply hnodup.1
      rw [Prod.mk.injEq] at hx1
      rw [← hx1.1]
      exact List.mem_map.mpr ⟨(n, y), hy1, rfl⟩
    · exfalso
      apply hnodup.1
      rw [Prod.mk.injEq] at hy1
      rw [← hy1.1]
      exact List.mem_map.mpr ⟨(n, x), hx1, rfl⟩
    · exact assoc_value_unique t hnodup.2 hx1 hy1

/-- Claim C6. Starting the supervisor on a configuration whose watcher object
has (necessarily) distinct keys: the running list is exactly the resolved
(enabled, non-blank-command) entries; an entry whose enabled flag is
`false` or whose command is blank after trimming is never spawned and never
appears in `getRunningWatchers`; every other present entry is started. -/
theorem startup_filters_specs (ws : List (String × Option WatcherConfig)) (now pid : Nat)
    (hnodup : (ws.map Prod.fst).Nodup) :
    getRunningWatchers (startWatcherManager { watchers := some ws } now pid) =
      (resolveWatcherConfigs { watchers := some ws }).map Prod.fst ∧
    (∀ name c, (name, some c) ∈ ws → (c.enabled = some false ∨ jsTrim c.command = "") →
      name ∉ getRunningWatchers (startWatcherManager { watchers := some ws } now pid)) ∧
    (∀ name c, (name, some c) ∈ ws → c.enabled ≠ some false → jsTrim c.command ≠ "" →
      name ∈ getRunningWatchers (startWatcherManager { watchers := some ws } now pid)) := by
  have hrun : getRunningWatchers (startWatcherManager { watchers := some ws } now pid) =
      (resolveWatcherConfigs { watchers := some ws }).map Prod.fst :=
    getRunningWatchers_startAll _ now pid
  refine ⟨hrun, ?_, ?_⟩
  · intro name c hmem hbad hin
    rw [hrun] at hin
    rcases List.mem_map.mp hin with ⟨q, hq, hq1⟩
    rcases List.mem_filterMap.mp hq with ⟨a, ha, hfa⟩
    rcases a with ⟨n', oc⟩
    cases oc with
    | none => exact absurd hfa (by simp [keepWatcherEntry])
    | some c' =>
      rw [show keepWatcherEntry (n', some c') =
          (if c'.enabled ≠ some false ∧ jsTrim c'.command ≠ "" then some (n', c')
           else none) from rfl] at hfa
      by_cases hcond : c'.enabled ≠ some false ∧ jsTrim c'.command ≠ ""
      · rw [if_pos hcond] at hfa
        rw [Option.some.injEq] at hfa
        rw [← hfa] at hq1
        have hn : n' = name := hq1
        rw [hn] at ha
        have : some c' = some c := assoc_value_unique ws hnodup ha hmem
        rw [Option.some.injEq] at this
        rw [this] at hcond
        rcases hbad with hbad | hbad
        · exact hcond.1 hbad
        · exact hcond.2 hbad
      · rw [if_neg hcond] at hfa
        exact absurd hfa (by simp)
  · intro name c hmem hen hcmd
    rw [hrun]
    refine List.mem_map.mpr ⟨(name, c), ?_, rfl⟩
    refine List.mem_filterMap.mpr ⟨(name, some c), hmem, ?_⟩
    rw [show keepWatcherEntry (name, some c) =
        (if c.enabled ≠ some false ∧ jsTrim c.command ≠ "" then some (name, c)
         else none) from rfl]
    rw [if_pos ⟨hen, hcmd⟩]

/-- Witness for `startup_filters_specs`: a config with one enabled watcher,
one disabled watcher and one blank-command watcher runs exactly the enabled
one. -/
theorem startup_filters_specs_witness :
    (([("active", some { command := "sleep 300", enabled := some true }),
       ("inactive", some { command := "x", enabled := some false }),
       ("empty", some ({ command := "  " } : WatcherConfig))].map Prod.fst).Nodup) ∧
    getRunningWatchers (startWatcherManager
        { watchers := some
            [("active", some { command := "sleep 300", enabled := some true }),
             ("inactive", some { command := "x", enabled := some false }),
             ("empty", some ({ command := "  " } : WatcherConfig))] } 0 1) =
      (resolveWatcherConfigs
        { watchers := some
            [("active", some { command := "sleep 300", enabled := some true }),
             ("inactive", some { command := "x", enabled := some false }),
             ("empty", some ({ command := "  " } : WatcherConfig))] }).map Prod.fst ∧
    getRunningWatchers (startWatcherManager
        { watchers := some
            [("active", some { command := "sleep 300", enabled := some true }),
             ("inactive", some { command := "x", enabled := some false }),
             ("empty", some ({ command := "  " } : WatcherConfig))] } 0 1) = ["active"] :=
  ⟨by decide,
   (startup_filters_specs _ 0 1 (by decide)).1,
   by decide⟩

/-- Claim C7. Once `updateConfig`'s stop-then-start sequence has completed,
the running set is exactly the enabled non-blank-command watchers of the
new configuration, whatever was running before: a name is running iff it is
a resolved entry of the new config. -/
theorem updateConfig_replaces (m : Manager) (cfg : OpenClawConfig) (now pid : Nat) :
    getRunningWatchers (updateConfig m cfg now pid) =
      (resolveWatcherConfigs cfg).map Prod.fst ∧
    ∀ name, name ∈ getRunningWatchers (updateConfig m cfg now pid) ↔
      name ∈ (resolveWatcherConfigs cfg).map Prod.fst := by
  have h : getRunningWatchers (updateConfig m cfg now pid) =
      getRunningWatchers (startAll cfg now pid) := by
    unfold updateConfig stopAll getRunningWatchers
    rfl
  rw [h, getRunningWatchers_startAll]
  exact ⟨rfl, fun _ => Iff.rfl⟩


lemma foldl_setVar_apply : ∀ (l : List (String × String)) (e : EnvMap) (k : String),
    (l.foldl (fun e kv => setVar e kv.1 kv.2) e) k =
      match lookupLast l k with
      | some v => some v
      | none => e k
  | [], _, _ => rfl
  | kv :: t, e, k => by
    rw [List.foldl_cons, foldl_setVar_apply t (setVar e kv.1 kv.2) k]
    rw [lookupLast]
    cases lookupLast t k with
    | some v => rfl
    | none =>
      show setVar e kv.1 kv.2 k = _
      unfold setVar
      by_cases h : kv.1 = k
      · rw [if_pos h, if_pos h.symm]
      · rw [if_neg h, if_neg (Ne.symm h)]

/-- Claim C10, counterexample. When the spec has no positive interval,
`WATCHER_INTERVAL_SECONDS` is not necessarily absent from the child
environment: `buildWatcherEnv` starts from a copy of `process.env`, so a
host environment that already carries `WATCHER_INTERVAL_SECONDS=7` passes
it through to a watcher whose spec has no interval at all. -/
theorem env_interval_not_absent :
    buildWatcherEnv
      (fun x => if x = "WATCHER_INTERVAL_SECONDS" then some "7" else none)
      "w" { command := "c" } "WATCHER_INTERVAL_SECONDS" = some "7" ∧
    ¬ buildWatcherEnv
      (fun x => if x = "WATCHER_INTERVAL_SECONDS" then some "7" else none)
      "w" { command := "c" } "WATCHER_INTERVAL_SECONDS" = none := by
  refine ⟨by decide, by decide⟩

/-- Claim C10, amended. In the environment given to every spawned watcher
process: (1) the user env map is merged after the injected variables, so
the last user assignment to any key — including `WATCHER_NAME` and
`WATCHER_INTERVAL_SECONDS` — wins; (2) with no user override,
`WATCHER_NAME` is the watcher's name; (3) `WATCHER_INTERVAL_SECONDS` is
injected exactly when the spec's interval is a number greater than zero;
otherwise it is **not injected**, and its value, if any, is whatever the
inherited host environment provides. -/
theorem buildWatcherEnv_spec (p : EnvMap) (name : String) (config : WatcherConfig) :
    (∀ k v, lookupLast config.env k = some v → buildWatcherEnv p name config k = some v) ∧
    (lookupLast config.env "WATCHER_NAME" = none →
      buildWatcherEnv p name config "WATCHER_NAME" = some name) ∧
    (∀ i, config.interval = some i → 0 < i →
      lookupLast config.env "WATCHER_INTERVAL_SECONDS" = none →
      buildWatcherEnv p name config "WATCHER_INTERVAL_SECONDS" = some (toString i)) ∧
    (¬ (∃ i, config.interval = some i ∧ 0 < i) →
      lookupLast config.env "WATCHER_INTERVAL_SECONDS" = none →
      buildWatcherEnv p name config "WATCHER_INTERVAL_SECONDS" =
        p "WATCHER_INTERVAL_SECONDS") := by
  refine ⟨?_, ?_, ?_, ?_⟩
  · intro k v h
    unfold buildWatcherEnv
    rw [foldl_setVar_apply, h]
  · intro h
    unfold buildWatcherEnv
    rw [foldl_setVar_apply, h]
    cases hi : config.interval with
    | none => exact if_pos rfl
    | some i =>
      dsimp only
      by_cases hpos : i > 0
      · rw [if_pos hpos]
        show setVar _ "WATCHER_INTERVAL_SECONDS" _ "WATCHER_NAME" = some name
        unfold setVar
        rw [if_neg (by decide)]
        exact if_pos rfl
      · rw [if_neg hpos]
        exact if_pos rfl
  · intro i hi hpos h
    unfold buildWatcherEnv
    rw [foldl_setVar_apply, h, hi]
    dsimp only
    rw [if_pos hpos]
    exact if_pos rfl
  · intro hno h
    unfold buildWatcherEnv
    rw [foldl_setVar_apply, h]
    cases hi : config.interval with
    | none =>
      show setVar p "WATCHER_NAME" name "WATCHER_INTERVAL_SECONDS" = _
      unfold setVar
      rw [if_neg (by decide)]
    | some i =>
      have hle : ¬ i > 0 := fun hpos => hno ⟨i, hi, hpos⟩
      dsimp only
      rw [if_neg hle]
      show setVar p "WATCHER_NAME" name "WATCHER_INTERVAL_SECONDS" = _
      unfold setVar
      rw [if_neg (by decide)]

/-- Witness for `buildWatcherEnv_spec`: with user env
`[("WATCHER_NAME", "override")]` and interval 30, the child sees
`WATCHER_NAME=override` (user wins) and `WATCHER_INTERVAL_SECONDS=30`
(injected). -/
theorem buildWatcherEnv_spec_witness :
    buildWatcherEnv (fun _ => none) "w"
      { command := "c", interval := some 30, env := [("WATCHER_NAME", "override")] }
      "WATCHER_NAME" = some "override" ∧
    buildWatcherEnv (fun _ => none) "w"
      { command := "c", interval := some 30, env := [("WATCHER_NAME", "override")] }
      "WATCHER_INTERVAL_SECONDS" = some (toString (30 : Int)) :=
  ⟨(buildWatcherEnv_spec (fun _ => none) "w"
      { command := "c", interval := some 30, env := [("WATCHER_NAME", "override")] }).1
      "WATCHER_NAME" "override" (by decide),
   (buildWatcherEnv_spec (fun _ => none) "w"
      { command := "c", interval := some 30, env := [("WATCHER_NAME", "override")] }).2.2.1
      30 rfl (by decide) (by decide)⟩

end OpenClaw.WatcherManager


namespace OpenClaw.Guardian

lemma integrity_read_only (hash : String → String) (cv : ConfigView) (bl : Option Baseline) :
    (check_config_integrity false hash cv bl).1 = bl := by
  cases bl <;> rfl

lemma runChecks_baseline (w : GuardianWorld) (b : Option Baseline) :
    (runChecks w b).1 = b := by
  unfold runChecks
  exact integrity_read_only w.hash w.configView b

lemma main_preserves_baseline (w : GuardianWorld) (b : Option Baseline)
    (h : w.initBaseline = false) : (main w b).2 = b := by
  unfold main
  by_cases h1 : w.configFound = false
  · rw [if_pos h1]
  · rw [if_neg h1]
    by_cases h2 : w.configValidJson = false
    · rw [if_pos h2]
    · rw [if_neg h2, h]
      simp only [Bool.false_eq_true, if_false]
      exact runChecks_baseline w b

lemma run_watch_preserves_baseline : ∀ (ws : List GuardianWorld) (b : Option Baseline),
    (∀ w2 ∈ ws, w2.initBaseline = false) → run_watch ws b = b
  | [], _, _ => rfl
  | w :: t, b, h => by
    rw [run_watch, List.foldl_cons,
      main_preserves_baseline w b (h w (List.mem_cons_self w t))]
    exact run_watch_preserves_baseline t b fun w2 hw2 => h w2 (List.mem_cons_of_mem w hw2)

/-- Claim C4. The baseline file is written only under the init-baseline flag:
a normal pass (one-shot `main` with the flag off, or any number of watch
iterations with the flag off) leaves the baseline file content untouched,
while an init-baseline invocation on a found, valid config replaces it with
the freshly computed hashes. -/
theorem baseline_written_only_on_init (w : GuardianWorld) (ws : List GuardianWorld)
    (b : Option Baseline) (hnorm : w.initBaseline = false)
    (hws : ∀ w2 ∈ ws, w2.initBaseline = false) :
    (main w b).2 = b ∧
    run_watch ws b = b ∧
    (∀ w3 : GuardianWorld, w3.initBaseline = true → w3.configFound = true →
      w3.configValidJson = true →
      (main w3 b).2 = some (currentHashes w3.hash w3.configView)) := by
  refine ⟨main_preserves_baseline w b hnorm, run_watch_preserves_baseline ws b hws, ?_⟩
  intro w3 hinit hfound hvalid
  unfold main
  rw [hfound, hvalid, hinit]
  simp only [Bool.true_eq_false, if_false, if_true]
  cases b <;> rfl

end OpenClaw.Guardian

namespace OpenClaw.Guardian


/-- Witness for `baseline_written_only_on_init`: a normal pass and a
two-tick watch loop leave a concrete baseline unchanged, and an
init-baseline pass on the same inputs replaces it. -/
theorem baseline_written_only_on_init_witness :
    W0.initBaseline = false ∧
    (∀ w2 ∈ [W0, W0], w2.initBaseline = false) ∧
    (main W0 (some [("agents.defaults", "h1")])).2 = some [("agents.defaults", "h1")] ∧
    run_watch [W0, W0] (some [("agents.defaults", "h1")]) = some [("agents.defaults", "h1")] ∧
    (main { W0 with initBaseline := true } (some [("agents.defaults", "h1")])).2 =
      some (currentHashes W0.hash W0.configView) :=
  ⟨rfl, by decide,
   (baseline_written_only_on_init W0 [W0, W0] _ rfl (by decide)).1,
   (baseline_written_only_on_init W0 [W0, W0] _ rfl (by decide)).2.1,
   (baseline_written_only_on_init W0 [W0, W0] _ rfl (by decide)).2.2
     { W0 with initBaseline := true } rfl rfl rfl⟩

end OpenClaw.Guardian

namespace OpenClaw.Guardian

/-- Claim C5. On a critical check failure with pause-on-critical enabled, the
guardian runs the gateway-stop strategies in the order CLI, node, systemd,
launchd; when every strategy is unavailable or fails, it writes the
gateway.lock file, whose JSON contains the pair locked:true, the reason,
and the timestamp. -/
theorem pause_on_critical (ok : StopStrategy → Bool) (ts : String)
    (hfail : ∀ s, ok s = false) :
    strategyOrder = [.cli, .node, .systemd, .launchd] ∧
    fire_alert true "critical" ok ts = some (none, some (lockFileContent ts)) ∧
    (∃ pre post, lockFileContent ts = pre ++ "\"locked\":true" ++ post) ∧
    (∃ pre post, lockFileContent ts = pre ++ "\"reason\":\"watchdog_critical_violation\"" ++ post) ∧
    (∃ pre, lockFileContent ts = pre ++ "\"timestamp\":\"" ++ ts ++ "\"\x7d\n") := by
  refine ⟨rfl, ?_, ?_, ?_, ?_⟩
  · simp [fire_alert, pause_gateway, attemptStrategies, strategyOrder, hfail]
  · exact ⟨"\x7b",
      ",\"reason\":\"watchdog_critical_violation\",\"timestamp\":\"" ++ ts ++ "\"\x7d\n", rfl⟩
  · exact ⟨"\x7b\"locked\":true,", ",\"timestamp\":\"" ++ ts ++ "\"\x7d\n", rfl⟩
  · exact ⟨"\x7b\"locked\":true,\"reason\":\"watchdog_critical_violation\",", rfl⟩

/-- Witness for `pause_on_critical`: with every strategy failing and a
concrete timestamp, `fire_alert` on a critical incident writes the lock
file. -/
theorem pause_on_critical_witness :
    (∀ s : StopStrategy, (fun _ : StopStrategy => false) s = false) ∧
    fire_alert true "critical" (fun _ => false) "2026-02-20T00:00:00Z" =
      some (none, some (lockFileContent "2026-02-20T00:00:00Z")) :=
  ⟨fun _ => rfl, (pause_on_critical (fun _ => false) "2026-02-20T00:00:00Z" fun _ => rfl).2.1⟩

end OpenClaw.Guardian

namespace OpenClaw.Guardian

lemma run_once_noSetup (w : GuardianWorld) (b : Option Baseline) (h : noSetupError w) :
    run_once w b = main w b := by
  obtain ⟨h1, h2, h3, _, _⟩ := h
  unfold run_once
  rw [h1, h2, h3]
  rfl

lemma main_noSetup (w : GuardianWorld) (b : Option Baseline) (h : noSetupError w)
    (hinit : w.initBaseline = false) :
    main w b = (if 0 < (runChecks w b).2.length then 1 else 0, (runChecks w b).1) := by
  obtain ⟨_, _, _, h4, h5⟩ := h
  unfold main
  rw [h4, h5, hinit]
  rfl

/-- Claim C8. Exit codes of a one-shot invocation: 2 on an unknown CLI
option, on a missing required external command (jq or a sha256 tool), on an
unfindable config, or on an invalid-JSON config; with no setup error, an
init-baseline invocation exits 0 after writing the baseline, and otherwise
the exit code is 0 iff all four checks produced no incident and 1 iff at
least one did. -/
theorem guardian_exit_codes (w : GuardianWorld) (b : Option Baseline) :
    (w.unknownOption = true → (run_once w b).1 = 2) ∧
    (w.unknownOption = false → w.jqAvailable = false → (run_once w b).1 = 2) ∧
    (w.unknownOption = false → w.jqAvailable = true → w.shaAvailable = false →
      (run_once w b).1 = 2) ∧
    (w.unknownOption = false → w.jqAvailable = true → w.shaAvailable = true →
      w.configFound = false → (run_once w b).1 = 2) ∧
    (w.unknownOption = false → w.jqAvailable = true → w.shaAvailable = true →
      w.configFound = true → w.configValidJson = false → (run_once w b).1 = 2) ∧
    (noSetupError w → w.initBaseline = true →
      (run_once w b).1 = 0 ∧
      (run_once w b).2 = some (currentHashes w.hash w.configView)) ∧
    (noSetupError w → w.initBaseline = false →
      ((run_once w b).1 = 0 ↔ (runChecks w b).2 = []) ∧
      ((run_once w b).1 = 1 ↔ (runChecks w b).2 ≠ [])) := by
  refine ⟨?_, ?_, ?_, ?_, ?_, ?_, ?_⟩
  · intro h1
    unfold run_once
    rw [h1]
    rfl
  · intro h1 h2
    unfold run_once
    rw [h1, h2]
    rfl
  · intro h1 h2 h3
    unfold run_once
    rw [h1, h2, h3]
    rfl
  · intro h1 h2 h3 h4
    unfold run_once main
    rw [h1, h2, h3, h4]
    rfl
  · intro h1 h2 h3 h4 h5
    unfold run_once main
    rw [h1, h2, h3, h4, h5]
    rfl
  · intro h hinit
    rw [run_once_noSetup w b h]
    obtain ⟨_, _, _, h4, h5⟩ := h
    unfold main
    rw [h4, h5, hinit]
    simp only [Bool.true_eq_false, if_false, if_true]
    cases b <;> exact ⟨trivial, rfl⟩
  · intro h hinit
    rw [run_once_noSetup w b h, main_noSetup w b h hinit]
    cases hl : (runChecks w b).2 with
    | nil => simp
    | cons i t => simp
end OpenClaw.Guardian

namespace OpenClaw.Guardian

/-- Witness for `guardian_exit_codes` at concrete worlds: an unknown option
exits 2, an init-baseline run exits 0 writing the baseline, an all-pass run
exits 0, and a run with an open DM policy exits 1. -/
theorem guardian_exit_codes_witness :
    ({ W0 with unknownOption := true } : GuardianWorld).unknownOption = true ∧
    (run_once { W0 with unknownOption := true } none).1 = 2 ∧
    (run_once { W0 with initBaseline := true } none).1 = 0 ∧
    (run_once { W0 with initBaseline := true } none).2 =
      some (currentHashes W0.hash W0.configView) ∧
    (run_once W0 none).1 = 0 ∧
    (run_once { W0 with toolPolicy := { TP0 with dmPolicy := "open" } } none).1 = 1 :=
  ⟨rfl,
   (guardian_exit_codes { W0 with unknownOption := true } none).1 rfl,
   ((guardian_exit_codes { W0 with initBaseline := true } none).2.2.2.2.2.1
     (by exact ⟨rfl, rfl, rfl, rfl, rfl⟩) rfl).1,
   ((guardian_exit_codes { W0 with initBaseline := true } none).2.2.2.2.2.1
     (by exact ⟨rfl, rfl, rfl, rfl, rfl⟩) rfl).2,
   (((guardian_exit_codes W0 none).2.2.2.2.2.2
     (by exact ⟨rfl, rfl, rfl, rfl, rfl⟩) rfl).1).mpr (by decide),
   (((guardian_exit_codes { W0 with toolPolicy := { TP0 with dmPolicy := "open" } }
       none).2.2.2.2.2.2 (by exact ⟨rfl, rfl, rfl, rfl, rfl⟩) rfl).2).mpr (by decide)⟩

lemma filterMap_id_nil {α : Type} (l : List (Option α)) (h : ∀ x ∈ l, x = none) :
    l.filterMap id = [] :=
  List.filterMap_eq_nil_iff.mpr h

/-- Claim C9. When the resolved configuration yields no system-prompt text at
all — no defaults prompt, every per-agent prompt absent, every identity
document unreadable or absent — the resolved text is empty and the
constitutional-text check skips its phrase checks entirely, producing no
incident and hence no failure, whatever the phrase list contains. -/
theorem empty_prompt_text_skips (phraseLines : List String)
    (agentPrompts docFiles : List (Option String))
    (hps : ∀ x ∈ agentPrompts, x = none) (hds : ∀ x ∈ docFiles, x = none) :
    resolveAllPromptText none agentPrompts docFiles = "" ∧
    check_constitutional_text phraseLines
      (resolveAllPromptText none agentPrompts docFiles) = none := by
  have htext : resolveAllPromptText none agentPrompts docFiles = "" := by
    unfold resolveAllPromptText
    rw [filterMap_id_nil agentPrompts hps, filterMap_id_nil docFiles hds]
    rfl
  refine ⟨htext, ?_⟩
  rw [htext]
  rfl

/-- Witness for `empty_prompt_text_skips`: with one required phrase and all
prompt sources absent, the check reports nothing. -/
theorem empty_prompt_text_skips_witness :
    (∀ x ∈ [(none : Option String)], x = none) ∧
    (∀ x ∈ ([] : List (Option String)), x = none) ∧
    resolveAllPromptText none [none] [] = "" ∧
    check_constitutional_text ["safety"] (resolveAllPromptText none [none] []) = none :=
  ⟨by decide, by decide,
   (empty_prompt_text_skips ["safety"] [none] [] (by decide) (by decide)).1,
   (empty_prompt_text_skips ["safety"] [none] [] (by decide) (by decide)).2⟩

end OpenClaw.Guardian
